import Mathlib

/-!
Shallow embedding of the verification-code-mediated authentication workflow
of the finance-app backend (src/app/routers/auth.py, src/app/services/auth.py,
src/app/services/email.py, src/app/models/*).

Modelling conventions:
- Database rows are Lean structures; the database session is an explicit
  record of lists (users, verification sessions, categories).
- UUIDs are modelled as naturals drawn from a fresh-id counter in the state
  (uuid4 generates fresh identifiers; only freshness matters here).
- Wall-clock datetimes are naturals; every operation takes the current time
  as an explicit argument, and code expiry is current time plus a constant.
- The secure random draw of secrets.randbelow(1000000) is an explicit
  argument to the operations that generate a code.
- bcrypt hashing is an external collaborator; it is modelled by an abstract
  injective tagging function, which suffices because the claims only speak
  about match / mismatch of passwords.
- Each endpoint returns the updated database state, the trace of what the
  email collaborator did, and either a response or the HTTP error raised,
  mirroring the commit points of the Python code (an error raised after a
  commit keeps the committed state, e.g. the failed-attempt increment).
-/

namespace FinanceApp

/-- Model of app.models.user.User (SQLAlchemy row). -/
structure User where
  id : Nat
  email : String
  password_hash : Option String
  name : Option String
  avatar : Option String
  provider : Option String
  is_verified : Bool
  created_at : Nat
deriving DecidableEq, Repr

/-- Model of app.models.verification_code.VerificationCode (SQLAlchemy row). -/
structure VerificationCode where
  id : Nat
  user_id : Nat
  code : String
  purpose : String
  expires_at : Nat
  used : Bool
  attempts : Nat
  created_at : Nat
deriving DecidableEq, Repr

/-- Model of app.models.category.Category (SQLAlchemy row); the uuid primary
key is opaque and never read by the code under verification, so it is
omitted. -/
structure Category where
  user_id : Nat
  name : String
  icon : String
  color : String
  type : String
deriving DecidableEq, Repr

/-- The backing store: the three tables touched by the auth workflow plus a
fresh-id counter modelling uuid4 generation. -/
structure DB where
  users : List User
  sessions : List VerificationCode
  categories : List Category
  nextId : Nat
deriving DecidableEq, Repr

/-- The HTTPException statuses raised by the auth workflow. -/
inductive ApiError where
  | badRequest (detail : String)
  | unauthorized (detail : String)
  | forbidden (detail : String)
  | conflict (detail : String)
  | tooManyRequests (detail : String)
  | notFound (detail : String)
deriving DecidableEq, Repr

/-- MAX_VERIFICATION_ATTEMPTS = 5 (src/app/services/auth.py). -/
def MAX_VERIFICATION_ATTEMPTS : Nat := 5

/-- MAX_RESENDS = 3 (src/app/routers/auth.py). -/
def MAX_RESENDS : Nat := 3

/-- Modelled from the spec: settings.VERIFICATION_CODE_EXPIRE_MINUTES, the
configurable code lifetime (spec section 6 lists it in the configuration
surface; the field is read in src/app/services/auth.py but its declaration
is not among the sources). Its value is irrelevant to every claim. -/
def VERIFICATION_CODE_EXPIRE_MINUTES : Nat := 10

/-- Model of bcrypt.hashpw (src/app/services/auth.py, hash_password): an
opaque one-way tag; the claims depend only on verify/hash agreement. -/
def hash_password (password : String) : String :=
  String.append "bcrypt$" password

/-- Model of bcrypt.checkpw (src/app/services/auth.py, verify_password). -/
def verify_password (plain : String) (hashed : String) : Bool :=
  hash_password plain == hashed

/-- Model of the JWT issued by create_access_token (src/app/services/auth.py):
a token carrying the subject claim str(user.id); signature and expiry are
external collaborator concerns. -/
structure AccessToken where
  sub : String
deriving DecidableEq, Repr

/-- Model of create_access_token (src/app/services/auth.py). -/
def create_access_token (user_id : String) : AccessToken :=
  { sub := user_id }

/-- Character for a decimal digit d < 10. -/
def digitChar (d : Nat) : Char :=
  Char.ofNat (48 + d)

/-- Zero-padded 6-character decimal rendering, the behaviour of the Python
format string applied to a value below 1000000. -/
def format06 (n : Nat) : String :=
  String.mk [digitChar (n / 100000 % 10), digitChar (n / 10000 % 10),
             digitChar (n / 1000 % 10), digitChar (n / 100 % 10),
             digitChar (n / 10 % 10), digitChar (n % 10)]

/-- Model of secrets.randbelow: the draw is arbitrary entropy, the result is
its reduction into the requested range. -/
def secretsRandbelow (draw : Nat) (bound : Nat) : Nat :=
  draw % bound

/-- Model of generate_verification_code (src/app/services/auth.py):
format(secrets.randbelow(1000000), 06d). -/
def generate_verification_code (draw : Nat) : String :=
  format06 (secretsRandbelow draw 1000000)

/-- What the email collaborator ended up doing for one dispatch. -/
inductive EmailLog where
  | smtpSent
  | consoleLog
deriving DecidableEq, Repr

/-- Model of aiosmtplib.send (src/app/services/email.py): the network call
either succeeds or raises; which one is an external nondeterministic fact,
passed in as the deliveryOk flag. -/
def aiosmtplibSend (deliveryOk : Bool) : Except String Unit :=
  if deliveryOk then Except.ok () else Except.error "SMTP send failed"

/-- Model of send_verification_email (src/app/services/email.py): when SMTP
is unconfigured the code is logged to console; otherwise the send is
attempted and any exception is caught, logged, and the code printed to
console. The function never raises, so its type has no error case. -/
def send_verification_email (smtpConfigured : Bool) (deliveryOk : Bool) :
    EmailLog :=
  if smtpConfigured then
    match aiosmtplibSend deliveryOk with
    | Except.ok _ => EmailLog.smtpSent
    | Except.error _ => EmailLog.consoleLog
  else
    EmailLog.consoleLog

/-- Response schema VerificationPendingResponse (src/app/schemas/auth.py):
carries the session handle and a message, and structurally no token. -/
structure VerificationPendingResponse where
  session_id : Nat
  message : String
deriving DecidableEq, Repr

/-- Response schema UserResponse (src/app/schemas/auth.py). -/
structure UserResponse where
  id : String
  email : String
  name : Option String
  avatar : Option String
deriving DecidableEq, Repr

/-- Response schema AuthResponse (src/app/schemas/auth.py). -/
structure AuthResponse where
  user : UserResponse
  access_token : AccessToken
deriving DecidableEq, Repr

/-- Model of _build_auth_response (src/app/routers/auth.py). -/
def build_auth_response (user : User) (token : AccessToken) : AuthResponse :=
  { user := { id := toString user.id, email := user.email,
              name := user.name, avatar := user.avatar },
    access_token := token }

/-- Result of one endpoint call: the database state after all commits, the
trace of email dispatches, and the response or raised error. -/
structure Outcome (α : Type) where
  db : DB
  emails : List EmailLog
  resp : Except ApiError α
deriving Repr

/-- Update the verification-session row with the given id (ORM row mutation
followed by flush/commit). -/
def updateSession (db : DB) (sid : Nat)
    (f : VerificationCode → VerificationCode) : DB :=
  { db with sessions :=
      db.sessions.map (fun s => if s.id == sid then f s else s) }

/-- Update the user row with the given email (ORM row mutation followed by
flush/commit). -/
def updateUserByEmail (db : DB) (email : String) (f : User → User) : DB :=
  { db with users :=
      db.users.map (fun u => if u.email == email then f u else u) }

/-- Update the user row with the given id (ORM row mutation followed by
flush/commit). -/
def updateUserById (db : DB) (uid : Nat) (f : User → User) : DB :=
  { db with users :=
      db.users.map (fun u => if u.id == uid then f u else u) }

/-- Model of create_verification (src/app/services/auth.py): generate a code,
insert a fresh VerificationCode row, return (session handle, code). -/
def create_verification (db : DB) (now : Nat) (draw : Nat) (user_id : Nat)
    (purpose : String) : DB × Nat × String :=
  let code := generate_verification_code draw
  let record : VerificationCode :=
    { id := db.nextId, user_id := user_id, code := code, purpose := purpose,
      expires_at := now + VERIFICATION_CODE_EXPIRE_MINUTES,
      used := false, attempts := 0, created_at := now }
  ({ db with sessions := db.sessions ++ [record], nextId := db.nextId + 1 },
   record.id, code)

/-- Model of validate_verification_code (src/app/services/auth.py): looks up
the session and either raises (returning the state as committed so far) or
consumes the session. The failed-attempt increment is committed before the
mismatch error is raised, exactly as in the source. -/
def validate_verification_code (db : DB) (now : Nat) (session_id : Nat)
    (code : String) : DB × Except ApiError VerificationCode :=
  match db.sessions.find? (fun s => s.id == session_id) with
  | none =>
      (db, Except.error (ApiError.badRequest
        "Invalid or expired verification session"))
  | some record =>
      if record.used then
        (db, Except.error (ApiError.badRequest
          "Invalid or expired verification session"))
      else if record.expires_at < now then
        (db, Except.error (ApiError.badRequest "Verification code expired"))
      else if MAX_VERIFICATION_ATTEMPTS ≤ record.attempts then
        (db, Except.error (ApiError.tooManyRequests
          "Too many failed attempts. Please request a new code."))
      else if record.code != code then
        let remaining := MAX_VERIFICATION_ATTEMPTS - (record.attempts + 1)
        (updateSession db session_id
           (fun r => { r with attempts := r.attempts + 1 }),
         Except.error (ApiError.badRequest
           (String.append "Invalid code. "
             (String.append (toString remaining) " attempt(s) remaining."))))
      else
        (updateSession db session_id (fun r => { r with used := true }),
         Except.ok { record with used := true })

/-- The fixed DEFAULT_CATEGORIES catalog (src/app/services/auth.py),
transcribed verbatim. -/
def DEFAULT_CATEGORIES : List (String × String × String × String) :=
  [("Salary", "cash", "#10B981", "income"),
   ("Freelance", "laptop", "#6366F1", "income"),
   ("Investments", "trending-up", "#8B5CF6", "income"),
   ("Food & Drinks", "restaurant", "#F59E0B", "expense"),
   ("Transport", "car", "#3B82F6", "expense"),
   ("Shopping", "cart", "#EC4899", "expense"),
   ("Entertainment", "game-controller", "#F97316", "expense"),
   ("Health", "fitness", "#EF4444", "expense"),
   ("Bills & Utilities", "flash", "#14B8A6", "expense"),
   ("Education", "school", "#0EA5E9", "expense"),
   ("Gifts", "gift", "#D946EF", "both"),
   ("Other", "ellipsis-horizontal", "#6B7280", "both")]

/-- Model of _seed_categories (src/app/routers/auth.py): add one Category row
per catalog entry for the user, in one batch. -/
def seed_categories (db : DB) (uid : Nat) : DB :=
  { db with categories := db.categories ++
      DEFAULT_CATEGORIES.map (fun c =>
        { user_id := uid, name := c.1, icon := c.2.1,
          color := c.2.2.1, type := c.2.2.2 }) }

/-- Model of the signup endpoint (src/app/routers/auth.py, signup). -/
def signup (db : DB) (now : Nat) (draw : Nat)
    (smtpConfigured deliveryOk : Bool) (email password : String)
    (name : Option String) : Outcome VerificationPendingResponse :=
  match db.users.find? (fun u => u.email == email) with
  | some existing =>
      if existing.is_verified then
        { db := db, emails := [],
          resp := Except.error (ApiError.conflict "Email already registered") }
      else
        let db1 := updateUserByEmail db email (fun u =>
          { u with password_hash := some (hash_password password),
                   name := name })
        let r := create_verification db1 now draw existing.id "signup"
        { db := r.1,
          emails := [send_verification_email smtpConfigured deliveryOk],
          resp := Except.ok
            { session_id := r.2.1,
              message := "Verification code sent to your email" } }
  | none =>
      let user : User :=
        { id := db.nextId, email := email,
          password_hash := some (hash_password password), name := name,
          avatar := none, provider := none, is_verified := false,
          created_at := now }
      let db1 : DB :=
        { db with users := db.users ++ [user], nextId := db.nextId + 1 }
      let r := create_verification db1 now draw user.id "signup"
      { db := r.1,
        emails := [send_verification_email smtpConfigured deliveryOk],
        resp := Except.ok
          { session_id := r.2.1,
            message := "Verification code sent to your email" } }

/-- Model of the login endpoint (src/app/routers/auth.py, login). -/
def login (db : DB) (now : Nat) (draw : Nat)
    (smtpConfigured deliveryOk : Bool) (email password : String) :
    Outcome VerificationPendingResponse :=
  match db.users.find? (fun u => u.email == email) with
  | none =>
      { db := db, emails := [],
        resp := Except.error (ApiError.unauthorized "Invalid credentials") }
  | some user =>
      match user.password_hash with
      | none =>
          { db := db, emails := [],
            resp := Except.error
              (ApiError.unauthorized "Invalid credentials") }
      | some ph =>
          if user.is_verified then
            if verify_password password ph then
              let r := create_verification db now draw user.id "login"
              { db := r.1,
                emails := [send_verification_email smtpConfigured deliveryOk],
                resp := Except.ok
                  { session_id := r.2.1,
                    message := "Verification code sent to your email" } }
            else
              { db := db, emails := [],
                resp := Except.error
                  (ApiError.unauthorized "Invalid credentials") }
          else
            { db := db, emails := [],
              resp := Except.error (ApiError.forbidden
                "Email not verified. Please sign up again.") }

/-- Model of the verify-code endpoint (src/app/routers/auth.py, verify_code).
The user lookup uses the state returned by validate_verification_code; its
user table equals the input one, since validation only touches sessions. -/
def verify_code (db : DB) (now : Nat) (session_id : Nat) (code : String) :
    DB × Except ApiError AuthResponse :=
  match validate_verification_code db now session_id code with
  | (db1, Except.error e) => (db1, Except.error e)
  | (db1, Except.ok record) =>
      match db1.users.find? (fun u => u.id == record.user_id) with
      | none => (db1, Except.error (ApiError.notFound "User not found"))
      | some user =>
          if record.purpose == "signup" && !user.is_verified then
            let db2 := updateUserById db1 user.id (fun u =>
              { u with is_verified := true })
            let db3 := seed_categories db2 user.id
            let u2 : User := { user with is_verified := true }
            (db3, Except.ok (build_auth_response u2
              (create_access_token (toString u2.id))))
          else
            (db1, Except.ok (build_auth_response user
              (create_access_token (toString user.id))))

/-- Model of the resend-code endpoint (src/app/routers/auth.py, resend_code).
The quota query counts the sessions of the same (user, purpose) whose
created_at is at or after the created_at of the record whose handle was
passed in. The user is then fetched with scalar_one; the row exists by the
foreign-key constraint, and the unreachable missing case is modelled as the
raised-server-error path. -/
def resend_code (db : DB) (now : Nat) (draw : Nat)
    (smtpConfigured deliveryOk : Bool) (session_id : Nat) :
    Outcome VerificationPendingResponse :=
  match db.sessions.find? (fun s => s.id == session_id) with
  | none =>
      { db := db, emails := [],
        resp := Except.error
          (ApiError.badRequest "Invalid verification session") }
  | some old_record =>
      if old_record.used then
        { db := db, emails := [],
          resp := Except.error
            (ApiError.badRequest "Invalid verification session") }
      else
        let resend_count :=
          (db.sessions.filter (fun s =>
            s.user_id == old_record.user_id &&
            s.purpose == old_record.purpose &&
            decide (old_record.created_at ≤ s.created_at))).length
        if MAX_RESENDS < resend_count then
          { db := db, emails := [],
            resp := Except.error (ApiError.tooManyRequests
              "Maximum resend limit reached. Please start over.") }
        else
          let db1 := updateSession db session_id (fun r =>
            { r with used := true })
          match db1.users.find? (fun u => u.id == old_record.user_id) with
          | none =>
              { db := db1, emails := [],
                resp := Except.error (ApiError.notFound "User not found") }
          | some user =>
              let r := create_verification db1 now draw user.id
                old_record.purpose
              { db := r.1,
                emails := [send_verification_email smtpConfigured deliveryOk],
                resp := Except.ok
                  { session_id := r.2.1,
                    message := "New verification code sent to your email" } }

/-- Model of the social-auth endpoint from the point where the Identity
Resolver has produced its result (src/app/routers/auth.py, social_auth,
lines 222-246): the provider interaction itself is an external network
collaborator, so the resolved email (none when extraction failed) and name
are inputs. -/
def social_auth (db : DB) (provider : String) (email : Option String)
    (name : Option String) : DB × Except ApiError AuthResponse :=
  match email with
  | none =>
      (db, Except.error
        (ApiError.unauthorized "Could not extract email from token"))
  | some email =>
      match db.users.find? (fun u => u.email == email) with
      | none =>
          let user : User :=
            { id := db.nextId, email := email, password_hash := none,
              name := name, avatar := none, provider := some provider,
              is_verified := true, created_at := 0 }
          let db1 : DB :=
            { db with users := db.users ++ [user], nextId := db.nextId + 1 }
          let db2 := seed_categories db1 user.id
          (db2, Except.ok (build_auth_response user
            (create_access_token (toString user.id))))
      | some user =>
          if user.is_verified then
            (db, Except.ok (build_auth_response user
              (create_access_token (toString user.id))))
          else
            let db1 := updateUserByEmail db email (fun u =>
              { u with is_verified := true })
            let u2 : User := { user with is_verified := true }
            (db1, Except.ok (build_auth_response u2
              (create_access_token (toString u2.id))))

/-- Empty database, fresh-id counter at 0. -/
def emptyDB : DB := { users := [], sessions := [], categories := [], nextId := 0 }

/-- Challenge episode exercising the resend quota: a signup at time 0 creates
the original session (handle 1), then the client resends four times at times
1, 2, 3, 4, each time presenting the handle the previous call returned, as
it must, since each resend marks the presented session used. -/
def resendStep0 : Outcome VerificationPendingResponse :=
  signup emptyDB 0 0 true true "a@x.com" "secret1" (some "A")

/-- First resend, presenting the signup's handle 1. -/
def resendStep1 : Outcome VerificationPendingResponse :=
  resend_code resendStep0.db 1 0 true true 1

/-- Second resend, presenting handle 2. -/
def resendStep2 : Outcome VerificationPendingResponse :=
  resend_code resendStep1.db 2 0 true true 2

/-- Third resend, presenting handle 3. -/
def resendStep3 : Outcome VerificationPendingResponse :=
  resend_code resendStep2.db 3 0 true true 3

/-- Fourth resend, presenting handle 4. -/
def resendStep4 : Outcome VerificationPendingResponse :=
  resend_code resendStep3.db 4 0 true true 4

/-- Demo user row shared by concrete witnesses. -/
def wUser : User :=
  { id := 0, email := "a@x.com", password_hash := some (hash_password "secret1"),
    name := some "A", avatar := none, provider := none, is_verified := false,
    created_at := 0 }

/-- Demo verification-session row with chosen attempt counter, used flag and
expiry, shared by concrete witnesses. -/
def wSession (attempts : Nat) (used : Bool) (expires : Nat) :
    VerificationCode :=
  { id := 7, user_id := 0, code := "123456", purpose := "signup",
    expires_at := expires, used := used, attempts := attempts,
    created_at := 0 }

/-- Demo database holding wUser and one given session. -/
def wDB (s : VerificationCode) : DB :=
  { users := [wUser], sessions := [s], categories := [], nextId := 10 }

/-- Demo verified user row. -/
def wUserVerified : User := { wUser with is_verified := true }

/-- Demo database with one verified user and no sessions. -/
def wDBverified : DB :=
  { users := [wUserVerified], sessions := [], categories := [], nextId := 3 }

/-- Demo database with one unverified user and no sessions. -/
def wDBunverified : DB :=
  { users := [wUser], sessions := [], categories := [], nextId := 3 }

/-- The first matching list entry after a per-row update that does not touch
the id keeps matching, and is the update of the entry found before. -/
theorem find?_map_update {g : VerificationCode → VerificationCode}
    (hg : ∀ s, (g s).id = s.id) :
    ∀ (l : List VerificationCode) (sid : Nat) (rec : VerificationCode),
      l.find? (fun s => s.id == sid) = some rec →
      (l.map (fun s => if s.id == sid then g s else s)).find?
        (fun s => s.id == sid) = some (g rec) := by
  intro l
  induction l with
  | nil => intro sid rec h; simp at h
  | cons x xs ih =>
      intro sid rec h
      by_cases hx : (x.id == sid) = true
      · rw [@List.find?_cons_of_pos _ (fun s => s.id == sid) x xs hx] at h
        cases h
        simp only [List.map_cons]
        rw [if_pos hx]
        exact @List.find?_cons_of_pos _ (fun s => s.id == sid) (g x)
          (xs.map (fun s => if (s.id == sid) = true then g s else s))
          (by show ((g x).id == sid) = true; rw [hg]; exact hx)
      · rw [@List.find?_cons_of_neg _ (fun s => s.id == sid) x xs hx] at h
        simp only [List.map_cons]
        rw [if_neg hx]
        rw [@List.find?_cons_of_neg _ (fun s => s.id == sid) x
          (xs.map (fun s => if (s.id == sid) = true then g s else s)) hx]
        exact ih sid rec h

/-- On a matching session with a matching code, unused, unexpired, and under
the attempt cap, validation consumes the session and returns it marked used. -/
theorem validate_success (db : DB) (now sid : Nat) (code : String)
    (rec : VerificationCode)
    (hf : db.sessions.find? (fun s => s.id == sid) = some rec)
    (hu : rec.used = false) (hexp : ¬ rec.expires_at < now)
    (hatt : rec.attempts < MAX_VERIFICATION_ATTEMPTS)
    (hcode : rec.code = code) :
    validate_verification_code db now sid code =
      (updateSession db sid (fun r => { r with used := true }),
       Except.ok { rec with used := true }) := by
  unfold validate_verification_code
  rw [hf]
  have hnle : ¬ MAX_VERIFICATION_ATTEMPTS ≤ rec.attempts := by omega
  simp [hu, hexp, hnle, hcode]

/-- Updating a session row leaves the sessions table as the corresponding
row-wise map. -/
theorem sessions_updateSession (db : DB) (sid : Nat)
    (g : VerificationCode → VerificationCode) :
    (updateSession db sid g).sessions =
      db.sessions.map (fun s => if (s.id == sid) = true then g s else s) :=
  rfl

/-- Claim C1: in the only chain of ResendCode calls a client can make (each
call must present the handle returned by the previous one, because resend
marks the presented session used), the fourth resend succeeds and returns a
fifth session, instead of failing with TooManyRequests: the quota counts
sessions created at or after the presented (latest) session's created_at,
not the original's, so with strictly increasing creation times the count is
always 1 and the cap is never reached. -/
theorem resend_cap_never_fires_in_client_chain :
    resendStep1.resp = Except.ok
      { session_id := 2,
        message := "New verification code sent to your email" } ∧
    resendStep2.resp = Except.ok
      { session_id := 3,
        message := "New verification code sent to your email" } ∧
    resendStep3.resp = Except.ok
      { session_id := 4,
        message := "New verification code sent to your email" } ∧
    resendStep4.resp = Except.ok
      { session_id := 5,
        message := "New verification code sent to your email" } :=
  ⟨rfl, rfl, rfl, rfl⟩

/-- Claim C2: validation of an absent or already-used session fails with
BadRequest and returns the database unchanged; validation of an unexpired
check is skipped for used sessions; validation past expiry fails with
BadRequest and returns the database unchanged; and once a validation
succeeds, the session it consumed is marked used, so every later validation
with the same handle fails with BadRequest, for any submitted code and any
time, again leaving the state unchanged. -/
theorem session_consumed_at_most_once (db : DB) (now sid : Nat)
    (code : String) :
    (db.sessions.find? (fun s => s.id == sid) = none →
      validate_verification_code db now sid code =
        (db, Except.error (ApiError.badRequest
          "Invalid or expired verification session"))) ∧
    (∀ rec, db.sessions.find? (fun s => s.id == sid) = some rec →
      rec.used = true →
      validate_verification_code db now sid code =
        (db, Except.error (ApiError.badRequest
          "Invalid or expired verification session"))) ∧
    (∀ rec, db.sessions.find? (fun s => s.id == sid) = some rec →
      rec.used = false → rec.expires_at < now →
      validate_verification_code db now sid code =
        (db, Except.error
          (ApiError.badRequest "Verification code expired"))) ∧
    (∀ db2 rec, validate_verification_code db now sid code =
        (db2, Except.ok rec) →
      ∀ now2 code2, validate_verification_code db2 now2 sid code2 =
        (db2, Except.error (ApiError.badRequest
          "Invalid or expired verification session"))) := by
  refine ⟨?_, ?_, ?_, ?_⟩
  · intro h
    unfold validate_verification_code
    rw [h]
  · intro rec h hu
    unfold validate_verification_code
    rw [h]
    simp [hu]
  · intro rec h hu hexp
    unfold validate_verification_code
    rw [h]
    simp [hu, hexp]
  · intro db2 rec h now2 code2
    unfold validate_verification_code at h
    split at h
    · simp at h
    · rename_i r0 hf
      split at h
      · simp at h
      · split at h
        · simp at h
        · split at h
          · simp at h
          · split at h
            · simp at h
            · have hdb : updateSession db sid
                  (fun r => { r with used := true }) = db2 :=
                congrArg Prod.fst h
              subst hdb
              unfold validate_verification_code
              have hf2 := @find?_map_update
                (fun r => { r with used := true }) (fun _ => rfl)
                db.sessions sid r0 hf
              rw [sessions_updateSession, hf2]
              simp

/-- Witness for claim C2: consuming the demo session once, a second
validation with the same handle fails with BadRequest and no state change. -/
theorem session_consumed_at_most_once_witness :
    validate_verification_code
      (updateSession (wDB (wSession 0 false 100)) 7
        (fun r => { r with used := true })) 0 7 "123456" =
      (updateSession (wDB (wSession 0 false 100)) 7
        (fun r => { r with used := true }),
       Except.error (ApiError.badRequest
         "Invalid or expired verification session")) :=
  (session_consumed_at_most_once (wDB (wSession 0 false 100)) 0 7
    "123456").2.2.2 _ _ rfl 0 "123456"

/-- Claim C3: on an unused, unexpired session whose attempt counter is at or
above MAX_VERIFICATION_ATTEMPTS, validation fails with TooManyRequests for
every submitted code, the stored code included, and the state is unchanged. -/
theorem attempts_cap_blocks_even_correct_code (db : DB) (now sid : Nat)
    (code : String) (rec : VerificationCode)
    (hf : db.sessions.find? (fun s => s.id == sid) = some rec)
    (hu : rec.used = false) (hexp : ¬ rec.expires_at < now)
    (hatt : MAX_VERIFICATION_ATTEMPTS ≤ rec.attempts) :
    validate_verification_code db now sid code =
      (db, Except.error (ApiError.tooManyRequests
        "Too many failed attempts. Please request a new code.")) := by
  unfold validate_verification_code
  rw [hf]
  simp [hu, hexp, hatt]

/-- Witness for claim C3: the demo session has attempts = 5 and the submitted
code equals the stored code, yet validation fails with TooManyRequests. -/
theorem attempts_cap_blocks_even_correct_code_witness :
    validate_verification_code (wDB (wSession 5 false 100)) 0 7 "123456" =
      (wDB (wSession 5 false 100), Except.error (ApiError.tooManyRequests
        "Too many failed attempts. Please request a new code.")) :=
  attempts_cap_blocks_even_correct_code (wDB (wSession 5 false 100)) 0 7
    "123456" (wSession 5 false 100) rfl rfl (by decide) (by decide)

/-- Claim C4: on an unused, unexpired session under the cap, a mismatching
code increments the attempt counter by exactly one and persists it, the call
fails with BadRequest reporting cap minus the incremented counter as the
remaining attempts, and the persisted session still has used = false. -/
theorem mismatch_increments_and_reports_remaining (db : DB) (now sid : Nat)
    (code : String) (rec : VerificationCode)
    (hf : db.sessions.find? (fun s => s.id == sid) = some rec)
    (hu : rec.used = false) (hexp : ¬ rec.expires_at < now)
    (hatt : rec.attempts < MAX_VERIFICATION_ATTEMPTS)
    (hcode : rec.code ≠ code) :
    validate_verification_code db now sid code =
      (updateSession db sid (fun r => { r with attempts := r.attempts + 1 }),
       Except.error (ApiError.badRequest (String.append "Invalid code. "
         (String.append
           (toString (MAX_VERIFICATION_ATTEMPTS - (rec.attempts + 1)))
           " attempt(s) remaining.")))) ∧
    (updateSession db sid
        (fun r => { r with attempts := r.attempts + 1 })).sessions.find?
        (fun s => s.id == sid) =
      some { rec with attempts := rec.attempts + 1 } ∧
    ({ rec with attempts := rec.attempts + 1 } : VerificationCode).used =
      false := by
  refine ⟨?_, ?_, hu⟩
  · unfold validate_verification_code
    rw [hf]
    have hnle : ¬ MAX_VERIFICATION_ATTEMPTS ≤ rec.attempts := by omega
    have hb : (rec.code != code) = true := bne_iff_ne.mpr hcode
    simp [hu, hexp, hnle, hb]
  · rw [sessions_updateSession]
    exact @find?_map_update (fun r => { r with attempts := r.attempts + 1 })
      (fun _ => rfl) db.sessions sid rec hf

/-- Witness for claim C4: a wrong code on the fresh demo session commits the
attempt increment and reports 4 attempts remaining. -/
theorem mismatch_increments_witness :
    validate_verification_code (wDB (wSession 0 false 100)) 0 7 "999999" =
      (updateSession (wDB (wSession 0 false 100)) 7
        (fun r => { r with attempts := r.attempts + 1 }),
       Except.error (ApiError.badRequest
         "Invalid code. 4 attempt(s) remaining.")) :=
  (mismatch_increments_and_reports_remaining (wDB (wSession 0 false 100)) 0 7
    "999999" (wSession 0 false 100) rfl rfl (by decide) (by decide)
    (by decide)).1

/-- Claim C5: signup against a verified user with the same email fails with
Conflict and changes nothing; signup against an unverified user with the
same email overwrites that row's password hash and name in place, creating
no extra user row; otherwise a new unverified user is appended. In both
non-Conflict cases exactly one VerificationSession with purpose signup is
appended and the pending handle is returned (the response carries no
token by its type). -/
theorem signup_overwrites_or_creates (db : DB) (now draw : Nat)
    (cfg ok : Bool) (email password : String) (name : Option String) :
    (∀ u, db.users.find? (fun v => v.email == email) = some u →
      u.is_verified = true →
      signup db now draw cfg ok email password name =
        { db := db, emails := [],
          resp := Except.error
            (ApiError.conflict "Email already registered") }) ∧
    (∀ u, db.users.find? (fun v => v.email == email) = some u →
      u.is_verified = false →
      signup db now draw cfg ok email password name =
        { db := { users := db.users.map (fun v =>
                    if (v.email == email) = true then
                      { v with
                          password_hash := some (hash_password password),
                          name := name }
                    else v),
                  sessions := db.sessions ++
                    [{ id := db.nextId, user_id := u.id,
                       code := generate_verification_code draw,
                       purpose := "signup",
                       expires_at := now + VERIFICATION_CODE_EXPIRE_MINUTES,
                       used := false, attempts := 0, created_at := now }],
                  categories := db.categories, nextId := db.nextId + 1 },
          emails := [send_verification_email cfg ok],
          resp := Except.ok
            { session_id := db.nextId,
              message := "Verification code sent to your email" } }) ∧
    (db.users.find? (fun v => v.email == email) = none →
      signup db now draw cfg ok email password name =
        { db := { users := db.users ++
                    [{ id := db.nextId, email := email,
                       password_hash := some (hash_password password),
                       name := name, avatar := none, provider := none,
                       is_verified := false, created_at := now }],
                  sessions := db.sessions ++
                    [{ id := db.nextId + 1, user_id := db.nextId,
                       code := generate_verification_code draw,
                       purpose := "signup",
                       expires_at := now + VERIFICATION_CODE_EXPIRE_MINUTES,
                       used := false, attempts := 0, created_at := now }],
                  categories := db.categories, nextId := db.nextId + 2 },
          emails := [send_verification_email cfg ok],
          resp := Except.ok
            { session_id := db.nextId + 1,
              message := "Verification code sent to your email" } }) := by
  refine ⟨?_, ?_, ?_⟩
  · intro u hf hv
    unfold signup
    rw [hf]
    simp [hv]
  · intro u hf hv
    unfold signup
    rw [hf]
    simp [hv, updateUserByEmail, create_verification]
  · intro hf
    unfold signup
    rw [hf]
    simp [create_verification]

/-- Witness for claim C5: signup with the email of the verified demo user
fails with Conflict and leaves the database unchanged. -/
theorem signup_overwrites_or_creates_witness :
    signup wDBverified 0 0 true true "a@x.com" "pw1234" none =
      { db := wDBverified, emails := [],
        resp := Except.error (ApiError.conflict "Email already registered") } :=
  (signup_overwrites_or_creates wDBverified 0 0 true true "a@x.com" "pw1234"
    none).1 wUserVerified rfl rfl

/-- Claim C6: login fails with Unauthorized when no user has the email or
the user has no password credential; fails with Forbidden when the user is
unverified, for every submitted password; fails with Unauthorized on a
password mismatch; and on success appends exactly one VerificationSession
with purpose login and returns the pending handle with no token. -/
theorem login_requires_verified_and_password (db : DB) (now draw : Nat)
    (cfg ok : Bool) (email password : String) :
    (db.users.find? (fun v => v.email == email) = none →
      login db now draw cfg ok email password =
        { db := db, emails := [],
          resp := Except.error
            (ApiError.unauthorized "Invalid credentials") }) ∧
    (∀ u, db.users.find? (fun v => v.email == email) = some u →
      u.password_hash = none →
      login db now draw cfg ok email password =
        { db := db, emails := [],
          resp := Except.error
            (ApiError.unauthorized "Invalid credentials") }) ∧
    (∀ u ph, db.users.find? (fun v => v.email == email) = some u →
      u.password_hash = some ph → u.is_verified = false →
      login db now draw cfg ok email password =
        { db := db, emails := [],
          resp := Except.error (ApiError.forbidden
            "Email not verified. Please sign up again.") }) ∧
    (∀ u ph, db.users.find? (fun v => v.email == email) = some u →
      u.password_hash = some ph → u.is_verified = true →
      verify_password password ph = false →
      login db now draw cfg ok email password =
        { db := db, emails := [],
          resp := Except.error
            (ApiError.unauthorized "Invalid credentials") }) ∧
    (∀ u ph, db.users.find? (fun v => v.email == email) = some u →
      u.password_hash = some ph → u.is_verified = true →
      verify_password password ph = true →
      login db now draw cfg ok email password =
        { db := { users := db.users,
                  sessions := db.sessions ++
                    [{ id := db.nextId, user_id := u.id,
                       code := generate_verification_code draw,
                       purpose := "login",
                       expires_at := now + VERIFICATION_CODE_EXPIRE_MINUTES,
                       used := false, attempts := 0, created_at := now }],
                  categories := db.categories, nextId := db.nextId + 1 },
          emails := [send_verification_email cfg ok],
          resp := Except.ok
            { session_id := db.nextId,
              message := "Verification code sent to your email" } }) := by
  refine ⟨?_, ?_, ?_, ?_, ?_⟩
  · intro hf
    unfold login
    rw [hf]
  · intro u hf hph
    unfold login
    rw [hf]
    simp [hph]
  · intro u ph hf hph hv
    unfold login
    rw [hf]
    simp [hph, hv]
  · intro u ph hf hph hv hvp
    unfold login
    rw [hf]
    simp [hph, hv, hvp]
  · intro u ph hf hph hv hvp
    unfold login
    rw [hf]
    simp [hph, hv, hvp, create_verification]

/-- Witness for claim C6: the unverified demo user submits the correct
password and login still fails with Forbidden, with no state change. -/
theorem login_requires_verified_witness :
    login wDBunverified 0 0 true true "a@x.com" "secret1" =
      { db := wDBunverified, emails := [],
        resp := Except.error (ApiError.forbidden
          "Email not verified. Please sign up again.") } :=
  (login_requires_verified_and_password wDBunverified 0 0 true true "a@x.com"
    "secret1").2.2.1 wUser (hash_password "secret1") rfl rfl rfl

/-- Claim C7: on a successful verification (matching code on an unused,
unexpired session under the attempt cap, with the owning user present), the
session is marked used; when the purpose is signup and the user is not yet
verified, the user's is_verified flag is set and exactly the 12-entry
default category catalog is appended for that user in one batch; when the
purpose is login, users and categories are untouched; in both cases a
bearer token whose subject is the user id is returned with the profile. -/
theorem verify_success_marks_used_verifies_and_seeds (db : DB)
    (now sid : Nat) (code : String) (rec : VerificationCode) (user : User)
    (hf : db.sessions.find? (fun s => s.id == sid) = some rec)
    (hu : rec.used = false) (hexp : ¬ rec.expires_at < now)
    (hatt : rec.attempts < MAX_VERIFICATION_ATTEMPTS)
    (hcode : rec.code = code)
    (hfu : db.users.find? (fun u => u.id == rec.user_id) = some user) :
    DEFAULT_CATEGORIES.length = 12 ∧
    (updateSession db sid (fun r => { r with used := true })).sessions.find?
        (fun s => s.id == sid) = some { rec with used := true } ∧
    (rec.purpose = "signup" → user.is_verified = false →
      verify_code db now sid code =
        ({ users := db.users.map (fun v =>
              if (v.id == user.id) = true then { v with is_verified := true }
              else v),
           sessions := db.sessions.map (fun s =>
              if (s.id == sid) = true then { s with used := true } else s),
           categories := db.categories ++ DEFAULT_CATEGORIES.map (fun c =>
              { user_id := user.id, name := c.1, icon := c.2.1,
                color := c.2.2.1, type := c.2.2.2 }),
           nextId := db.nextId },
         Except.ok (build_auth_response { user with is_verified := true }
           (create_access_token (toString user.id))))) ∧
    (rec.purpose = "login" →
      verify_code db now sid code =
        ({ users := db.users,
           sessions := db.sessions.map (fun s =>
              if (s.id == sid) = true then { s with used := true } else s),
           categories := db.categories,
           nextId := db.nextId },
         Except.ok (build_auth_response user
           (create_access_token (toString user.id))))) := by
  have hval := validate_success db now sid code rec hf hu hexp hatt hcode
  refine ⟨rfl, ?_, ?_, ?_⟩
  · rw [sessions_updateSession]
    exact @find?_map_update (fun r => { r with used := true }) (fun _ => rfl)
      db.sessions sid rec hf
  · intro hp hv
    unfold verify_code
    rw [hval]
    simp [hfu, hp, hv, updateSession, updateUserById, seed_categories]
  · intro hp
    unfold verify_code
    rw [hval]
    simp [hfu, hp, updateSession]

/-- Witness for claim C7: verifying the demo signup session with the correct
code marks it used, verifies the user, seeds the 12 default categories and
returns a token for user 0. -/
theorem verify_success_witness :
    verify_code (wDB (wSession 0 false 100)) 0 7 "123456" =
      ({ users := (wDB (wSession 0 false 100)).users.map (fun v =>
            if (v.id == wUser.id) = true then { v with is_verified := true }
            else v),
         sessions := (wDB (wSession 0 false 100)).sessions.map (fun s =>
            if (s.id == 7) = true then { s with used := true } else s),
         categories := (wDB (wSession 0 false 100)).categories ++
           DEFAULT_CATEGORIES.map (fun c =>
             { user_id := wUser.id, name := c.1, icon := c.2.1,
               color := c.2.2.1, type := c.2.2.2 }),
         nextId := (wDB (wSession 0 false 100)).nextId },
       Except.ok (build_auth_response { wUser with is_verified := true }
         (create_access_token (toString wUser.id)))) :=
  (verify_success_marks_used_verifies_and_seeds (wDB (wSession 0 false 100))
    0 7 "123456" (wSession 0 false 100) wUser rfl rfl (by decide) (by decide)
    rfl rfl).2.2.1 rfl rfl

/-- Claim C8: the SMTP send can fail, but send_verification_email catches
the failure and falls back to a console log, so the database state and the
response of signup, login and resend-code are independent of the SMTP
configuration and of delivery success: a dispatch failure is never surfaced
to the caller. -/
theorem email_failure_never_surfaced :
    aiosmtplibSend false = Except.error "SMTP send failed" ∧
    send_verification_email true false = EmailLog.consoleLog ∧
    (∀ (db : DB) (now draw : Nat) (email password : String)
       (name : Option String) (cfg1 ok1 cfg2 ok2 : Bool),
      (signup db now draw cfg1 ok1 email password name).db =
        (signup db now draw cfg2 ok2 email password name).db ∧
      (signup db now draw cfg1 ok1 email password name).resp =
        (signup db now draw cfg2 ok2 email password name).resp) ∧
    (∀ (db : DB) (now draw : Nat) (email password : String)
       (cfg1 ok1 cfg2 ok2 : Bool),
      (login db now draw cfg1 ok1 email password).db =
        (login db now draw cfg2 ok2 email password).db ∧
      (login db now draw cfg1 ok1 email password).resp =
        (login db now draw cfg2 ok2 email password).resp) ∧
    (∀ (db : DB) (now draw sid : Nat) (cfg1 ok1 cfg2 ok2 : Bool),
      (resend_code db now draw cfg1 ok1 sid).db =
        (resend_code db now draw cfg2 ok2 sid).db ∧
      (resend_code db now draw cfg1 ok1 sid).resp =
        (resend_code db now draw cfg2 ok2 sid).resp) := by
  refine ⟨rfl, rfl, ?_, ?_, ?_⟩
  · intro db now draw email password name cfg1 ok1 cfg2 ok2
    refine ⟨?_, ?_⟩ <;>
      · unfold signup
        repeat (first | rfl | split)
  · intro db now draw email password cfg1 ok1 cfg2 ok2
    refine ⟨?_, ?_⟩ <;>
      · unfold login
        repeat (first | rfl | split)
  · intro db now draw sid cfg1 ok1 cfg2 ok2
    refine ⟨?_, ?_⟩ <;>
      · unfold resend_code
        repeat (first | rfl | split | simp only [])

/-- Decimal digit characters are ASCII digits with the expected code. -/
theorem digitChar_props :
    ∀ d, d < 10 → (digitChar d).isDigit = true ∧ (digitChar d).toNat = 48 + d := by
  decide

/-- Claim C9: every generated code is a 6-character string of ASCII digits
whose decimal value is the random draw reduced below 1000000, i.e. the
zero-padded decimal representation of an integer in 000000-999999. -/
theorem generate_code_is_six_digit_decimal (draw : Nat) :
    (generate_verification_code draw).length = 6 ∧
    (generate_verification_code draw).data.all (fun c => c.isDigit) = true ∧
    (generate_verification_code draw).data.foldl
        (fun a c => a * 10 + (c.toNat - 48)) 0 = secretsRandbelow draw 1000000 ∧
    secretsRandbelow draw 1000000 < 1000000 := by
  have hm : draw % 1000000 < 1000000 := Nat.mod_lt _ (by norm_num)
  have h10 : ∀ x : Nat, x % 10 < 10 := fun x => Nat.mod_lt _ (by norm_num)
  have hdata : (generate_verification_code draw).data =
      [digitChar (draw % 1000000 / 100000 % 10),
       digitChar (draw % 1000000 / 10000 % 10),
       digitChar (draw % 1000000 / 1000 % 10),
       digitChar (draw % 1000000 / 100 % 10),
       digitChar (draw % 1000000 / 10 % 10),
       digitChar (draw % 1000000 % 10)] := rfl
  refine ⟨rfl, ?_, ?_, hm⟩
  · rw [hdata]
    refine List.all_eq_true.mpr ?_
    intro c hc
    simp only [List.mem_cons, List.not_mem_nil, or_false] at hc
    rcases hc with rfl | rfl | rfl | rfl | rfl | rfl
    all_goals exact (digitChar_props _ (h10 _)).1
  · rw [hdata]
    simp only [List.foldl_cons, List.foldl_nil]
    rw [(digitChar_props _ (h10 (draw % 1000000 / 100000))).2,
        (digitChar_props _ (h10 (draw % 1000000 / 10000))).2,
        (digitChar_props _ (h10 (draw % 1000000 / 1000))).2,
        (digitChar_props _ (h10 (draw % 1000000 / 100))).2,
        (digitChar_props _ (h10 (draw % 1000000 / 10))).2,
        (digitChar_props _ (h10 (draw % 1000000))).2]
    show _ = draw % 1000000
    omega

/-- Claim C10: on social auth for an existing user, no verification session
is created and no categories are seeded; when the user is already verified
nothing at all changes; when the user is unverified only the is_verified
field of the matching user row flips to true (every other field, the
provider tag included, is carried over unchanged by the row update); in
both cases a token for the existing user id is returned. -/
theorem social_auth_existing_user_frame (db : DB) (provider : String)
    (name : Option String) (email : String) (user : User)
    (hf : db.users.find? (fun u => u.email == email) = some user) :
    (social_auth db provider (some email) name).1.sessions = db.sessions ∧
    (social_auth db provider (some email) name).1.categories =
      db.categories ∧
    (user.is_verified = true →
      social_auth db provider (some email) name =
        (db, Except.ok (build_auth_response user
          (create_access_token (toString user.id))))) ∧
    (user.is_verified = false →
      social_auth db provider (some email) name =
        ({ users := db.users.map (fun v =>
             if (v.email == email) = true then { v with is_verified := true }
             else v),
           sessions := db.sessions, categories := db.categories,
           nextId := db.nextId },
         Except.ok (build_auth_response { user with is_verified := true }
           (create_access_token (toString user.id))))) := by
  refine ⟨?_, ?_, ?_, ?_⟩
  · by_cases hv : user.is_verified = true <;>
      simp [social_auth, hf, hv, updateUserByEmail]
  · by_cases hv : user.is_verified = true <;>
      simp [social_auth, hf, hv, updateUserByEmail]
  · intro hv
    simp [social_auth, hf, hv]
  · intro hv
    simp [social_auth, hf, hv, updateUserByEmail]

/-- Witness for claim C10: social auth with the unverified demo user's email
flips only is_verified, creates no session and no categories, and returns a
token for user 0. -/
theorem social_auth_existing_user_frame_witness :
    social_auth wDBunverified "google" (some "a@x.com") none =
      ({ users := wDBunverified.users.map (fun v =>
           if (v.email == "a@x.com") = true then { v with is_verified := true }
           else v),
         sessions := wDBunverified.sessions,
         categories := wDBunverified.categories,
         nextId := wDBunverified.nextId },
       Except.ok (build_auth_response { wUser with is_verified := true }
         (create_access_token (toString wUser.id)))) :=
  (social_auth_existing_user_frame wDBunverified "google" none "a@x.com"
    wUser rfl).2.2.2 rfl

end FinanceApp
